import Mathlib

set_option maxRecDepth 100000

/-!
Verification of the module bundler (prantlf/esbuild fork) against its
natural-language specification.  The definitions below are shallow embeddings
of the Go source files:

* pkg/api/api_impl.go       - option validation and the build driver
* pkg/cli/cli_impl.go       - CLI flag parsing and the process entry point
* internal/config (part_000) - configuration types and AMD path mapping
* internal/bundler/bundler_importstar_ts_test.go - bundler output expectations

Go `panic` is modelled as `Option.none`; a Go function that can log errors is
modelled as returning the list of logged error messages.  Go map lookups that
default to the zero value are modelled by `lookupD` over association lists.
Byte-indexed Go string operations are modelled on `List Char`; every string
manipulated here is ASCII, where the two coincide.
-/

namespace Esbuild

/-- Association-list lookup returning the Go zero value "" when the key is
absent, like a Go `map[string]string` read. -/
def lookupD (m : List (String × String)) (k : String) : String :=
  match m.find? (fun kv => kv.1 == k) with
  | some kv => kv.2
  | none => ""

/-- Association-list lookup returning `none` when the key is absent, like a
Go comma-ok map read. -/
def lookupOpt (m : List (String × String)) (k : String) : Option String :=
  (m.find? (fun kv => kv.1 == k)).map (fun kv => kv.2)

/-- Does `pat` occur as a contiguous sublist of the second argument? -/
def charsInfix (pat : List Char) : List Char → Bool
  | [] => pat.isEmpty
  | c :: rest => pat.isPrefixOf (c :: rest) || charsInfix pat rest

/-- Substring test: does `s` contain `pat` as a contiguous substring? -/
def strContains (s pat : String) : Bool :=
  charsInfix pat.data s.data

----------------------------------------------------------------------------
-- C10: resolve-extension validation (pkg/api/api_impl.go lines 249-263)
----------------------------------------------------------------------------

/-- Embeds `isValidExtension` (api_impl.go lines 249-251):
`len(ext) >= 2 && ext[0] == '.' && ext[len(ext)-1] != '.'`.
Go indexes bytes; a first byte '.' is exactly a first char '.', and the byte
length is at least 2 exactly when the char length is (given the first char is
the one-byte '.'), so the char-level reading is equivalent. -/
def isValidExtension (ext : String) : Bool :=
  decide (2 ≤ ext.length) && (ext.data.head? == some '.') && !(ext.data.getLast? == some '.')

/-- The default extension order hard-coded in `validateResolveExtensions`
(api_impl.go line 255). -/
def defaultResolveExtensions : List String :=
  [".tsx", ".ts", ".jsx", ".mjs", ".cjs", ".js", ".css", ".json"]

/-- Embeds `validateResolveExtensions` (api_impl.go lines 253-263).  Returns
the extension order actually used together with the list of logged error
messages.  A `none` argument models the Go `nil` slice. -/
def validateResolveExtensions (order : Option (List String)) : List String × List String :=
  match order with
  | none => (defaultResolveExtensions, [])
  | some order =>
      (order,
       (order.filter (fun ext => !isValidExtension ext)).map
         (fun ext => "Invalid file extension: " ++ ext))

----------------------------------------------------------------------------
-- C6/C7: platform and format parsing/validation
-- (pkg/cli/cli_impl.go lines 354-408, pkg/api/api_impl.go lines 25-49,
--  internal/config part_000 lines 290-295 and 343-406)
----------------------------------------------------------------------------

/-- The public API platform constants (pkg/api), as produced by the CLI in
cli_impl.go lines 354-377. -/
inductive ApiPlatform where
  | browser
  | node
  | neutral
deriving DecidableEq

/-- The internal configuration platform type (part_000 lines 290-295): only
`PlatformBrowser` and `PlatformNode` exist. -/
inductive ConfigPlatform where
  | browser
  | node
deriving DecidableEq

/-- Embeds `validatePlatform` (api_impl.go lines 25-34).  The Go switch only
handles `PlatformBrowser` and `PlatformNode`; every other value, including
`PlatformNeutral`, hits `default: panic("Invalid platform")`, modelled as
`none`. -/
def validatePlatform : ApiPlatform → Option ConfigPlatform
  | .browser => some .browser
  | .node => some .node
  | .neutral => none

/-- Embeds the `--platform=` case of `parseOptionsImpl`
(cli_impl.go lines 354-377). -/
def parsePlatformValue : String → Except String ApiPlatform
  | "browser" => .ok .browser
  | "node" => .ok .node
  | "neutral" => .ok .neutral
  | value => .error ("Invalid platform: \"" ++ value ++ "\" (valid: browser, node, neutral)")

/-- The public API format constants (pkg/api), as produced by the CLI in
cli_impl.go lines 379-408; `default` is the zero value `FormatDefault`. -/
inductive ApiFormat where
  | default
  | iife
  | cjs
  | umd
  | esm
deriving DecidableEq

/-- The internal configuration format type (part_000 lines 343-406). -/
inductive ConfigFormat where
  | preserve
  | iife
  | cjs
  | umd
  | esm
  | join
deriving DecidableEq

/-- Embeds `validateFormat` (api_impl.go lines 36-49).  The Go switch handles
`FormatDefault`, `FormatIIFE`, `FormatCommonJS` and `FormatESModule`;
`FormatUMD` is missing and hits `default: panic("Invalid format")`, modelled
as `none`. -/
def validateFormat : ApiFormat → Option ConfigFormat
  | .default => some .preserve
  | .iife => some .iife
  | .cjs => some .cjs
  | .esm => some .esm
  | .umd => none

/-- Embeds the `--format=` case of `parseOptionsImpl`
(cli_impl.go lines 379-408). -/
def parseFormatValue : String → Except String ApiFormat
  | "iife" => .ok .iife
  | "cjs" => .ok .cjs
  | "umd" => .ok .umd
  | "esm" => .ok .esm
  | value => .error ("Invalid format: \"" ++ value ++ "\" (valid: iife, cjs, umd, esm)")

/-- The expected output of `TestLoaderJSONNoBundleUMD` (part_000 lines
167-182): the bundler emits the standard UMD preamble when the internal
format is `FormatUMD`. -/
def umdTestExpectedOutput : String :=
  "(function(root, factory) \x7b\n  if (typeof define === \"function\" && define.amd) \x7b\n    define(factory);\n  \x7d else if (typeof module === \"object\" && module.exports) \x7b\n    module.exports = factory();\n  \x7d else \x7b\n    factory();\n  \x7d\n\x7d(typeof self !== \"undefined\" ? self : this, () => \x7b\n  var require_test = __commonJS((exports, module) => \x7b\n    module.exports = \x7btest: 123, \"invalid-identifier\": true\x7d;\n  \x7d);\n  return require_test();\n\x7d));\n"

----------------------------------------------------------------------------
-- C2/C3/C4: bundled-output expectations
-- (internal/bundler/bundler_importstar_ts_test.go)
--
-- The bundler itself (graph builder, linker, printer) is not among the
-- provided sources; the test file asserts its exact output for each input
-- scenario, so those expectations are embedded verbatim as the observable
-- behaviour of the bundler.  A scenario records the module files actually
-- scanned by the build (TypeScript import elision removes an unused
-- `import ... from` entirely, so its target is never resolved), the entry
-- module of the emitted chunk, and the expected output text.
----------------------------------------------------------------------------

/-- One bundler test scenario: scanned module paths, the chunk's entry
module, and the output text the test expects. -/
structure BundleScenario where
  name : String
  scannedFiles : List String
  chunkEntry : String
  expectedOutput : String

/-- Expected output of `TestTSImportStarES6Unused` (test lines 8-39). -/
def expTSImportStarES6Unused : String :=
  "bootstrap(\x7b\n  0() \x7b\n    // /entry.ts\n    let foo = 234;\n    console.log(foo);\n  \x7d\n\x7d, 0);\n"

/-- Expected output of `TestTSImportStarES6Capture` (test lines 41-79). -/
def expTSImportStarES6Capture : String :=
  "bootstrap(\x7b\n  0() \x7b\n    // /foo.ts\n    var exports = \x7b\x7d;\n    __export(exports, \x7b\n      foo: () => foo2\n    \x7d);\n    const foo2 = 123;\n\n    // /entry.ts\n    let foo = 234;\n    console.log(exports, foo2, foo);\n  \x7d\n\x7d, 0);\n"

/-- Expected output of `TestTSImportStarES6NoCapture` (test lines 81-115). -/
def expTSImportStarES6NoCapture : String :=
  "bootstrap(\x7b\n  0() \x7b\n    // /foo.ts\n    const foo2 = 123;\n\n    // /entry.ts\n    let foo = 234;\n    console.log(foo2, foo2, foo);\n  \x7d\n\x7d, 0);\n"

/-- Expected output of `TestTSImportStarES6ExportImportStarUnused`
(test lines 117-152): identical text to the two-file unused scenario. -/
def expTSImportStarES6ExportImportStarUnused : String :=
  "bootstrap(\x7b\n  0() \x7b\n    // /entry.ts\n    let foo = 234;\n    console.log(foo);\n  \x7d\n\x7d, 0);\n"

/-- Expected output of `TestTSImportStarES6ExportImportStarNoCapture`
(test lines 154-198).  Note the chunk is keyed and invoked under id 1. -/
def expTSImportStarES6ExportImportStarNoCapture : String :=
  "bootstrap(\x7b\n  1() \x7b\n    // /foo.ts\n    var exports = \x7b\x7d;\n    __export(exports, \x7b\n      foo: () => foo2\n    \x7d);\n    const foo2 = 123;\n\n    // /bar.ts\n\n    // /entry.ts\n    let foo = 234;\n    console.log(exports.foo, exports.foo, foo);\n  \x7d\n\x7d, 1);\n"

/-- Expected output of `TestTSImportStarES6ExportStarNoCapture`
(test lines 408-447). -/
def expTSImportStarES6ExportStarNoCapture : String :=
  "bootstrap(\x7b\n  1() \x7b\n    // /foo.ts\n    const foo2 = 123;\n\n    // /bar.ts\n\n    // /entry.ts\n    let foo = 234;\n    console.log(foo2, foo2, foo);\n  \x7d\n\x7d, 1);\n"

/-- Expected output of `TestTSImportStarES6ExportStarCapture`
(test lines 449-492). -/
def expTSImportStarES6ExportStarCapture : String :=
  "bootstrap(\x7b\n  1() \x7b\n    // /foo.ts\n    const foo2 = 123;\n\n    // /bar.ts\n    var bar = \x7b\x7d;\n    __export(bar, \x7b\n      foo: () => foo2\n    \x7d);\n\n    // /entry.ts\n    let foo = 234;\n    console.log(bar, foo2, foo);\n  \x7d\n\x7d, 1);\n"

/-- Expected output of `TestTSImportStarCommonJSUnused` (test lines
494-525): the CommonJS module is gone entirely because the unused
TypeScript import was elided. -/
def expTSImportStarCommonJSUnused : String :=
  "bootstrap(\x7b\n  0() \x7b\n    // /entry.ts\n    let foo = 234;\n    console.log(foo);\n  \x7d\n\x7d, 0);\n"

/-- Expected output of `TestTSImportStarCommonJSCapture` (test lines
527-564): the CommonJS module is emitted as a wrapper function receiving
`exports`, and the importer obtains the namespace via `__import`. -/
def expTSImportStarCommonJSCapture : String :=
  "bootstrap(\x7b\n  1(exports) \x7b\n    // /foo.ts\n    exports.foo = 123;\n  \x7d,\n\n  0() \x7b\n    // /entry.ts\n    const ns = __import(1 /* ./foo */);\n    let foo = 234;\n    console.log(ns, ns.foo, foo);\n  \x7d\n\x7d, 0);\n"

/-- Expected output of `TestTSImportStarCommonJSNoCapture` (test lines
566-603). -/
def expTSImportStarCommonJSNoCapture : String :=
  "bootstrap(\x7b\n  1(exports) \x7b\n    // /foo.ts\n    exports.foo = 123;\n  \x7d,\n\n  0() \x7b\n    // /entry.ts\n    const ns = __import(1 /* ./foo */);\n    let foo = 234;\n    console.log(ns.foo, ns.foo, foo);\n  \x7d\n\x7d, 0);\n"

/-- Expected output chunk `/out/entry1.js` of `TestTSImportStarES6AndCommonJS`
(test lines 605-663). -/
def expTSImportStarES6AndCommonJSEntry1 : String :=
  "bootstrap(\x7b\n  2(exports) \x7b\n    // /foo.ts\n    __export(exports, \x7b\n      foo: () => foo\n    \x7d);\n    const foo = 123;\n  \x7d,\n\n  0() \x7b\n    // /entry1.js\n    const ns = __import(2 /* ./foo */);\n    console.log(ns.foo);\n  \x7d\n\x7d, 0);\n"

/-- Expected output chunk `/out/entry2.js` of `TestTSImportStarES6AndCommonJS`
(test lines 605-663). -/
def expTSImportStarES6AndCommonJSEntry2 : String :=
  "bootstrap(\x7b\n  2(exports) \x7b\n    // /foo.ts\n    __export(exports, \x7b\n      foo: () => foo\n    \x7d);\n    const foo = 123;\n  \x7d,\n\n  1() \x7b\n    // /entry2.js\n    const ns = __require(2 /* ./foo */);\n    console.log(ns.foo);\n  \x7d\n\x7d, 1);\n"

/-- Source of `/entry.ts` in `TestTSImportStarCommonJSUnused`
(test lines 497-501), kept verbatim from the Go raw string literal. -/
def srcTSImportStarCommonJSUnusedEntry : String :=
  "\n\t\t\t\t\timport * as ns from \x27./foo\x27\n\t\t\t\t\tlet foo = 234\n\t\t\t\t\tconsole.log(foo)\n\t\t\t\t"

/-- Source of `/foo.ts` in the three CommonJS import-star test scenarios
(test lines 502-504, 535-537, 574-576): the module writes `exports.foo`,
which classifies it as CommonJS-like. -/
def srcTSImportStarCommonJSFoo : String :=
  "\n\t\t\t\t\texports.foo = 123\n\t\t\t\t"

/-- Source of `/entry.ts` in `TestTSImportStarCommonJSCapture`
(test lines 530-534). -/
def srcTSImportStarCommonJSCaptureEntry : String :=
  "\n\t\t\t\t\timport * as ns from \x27./foo\x27\n\t\t\t\t\tlet foo = 234\n\t\t\t\t\tconsole.log(ns, ns.foo, foo)\n\t\t\t\t"

/-- Accumulate a digit list into a number. -/
def digitsToNat : List Char → Nat → Nat
  | [], acc => acc
  | c :: rest, acc => digitsToNat rest (acc * 10 + (c.toNat - 48))

/-- Extract the module id a bundled chunk is invoked with: every bundled
expectation ends in the text `\x7d, <id>);` followed by a newline, where
`<id>` is the argument given to `bootstrap`. -/
def bootstrapEntryId (s : String) : Option Nat :=
  match s.data.reverse with
  | '\n' :: ';' :: ')' :: rest =>
      let ds := rest.takeWhile Char.isDigit
      if ds.isEmpty then none else some (digitsToNat ds.reverse 0)
  | _ => none

/-- Lexicographic comparison of char lists (the byte order Go uses to sort
ASCII path strings). -/
def charListLt : List Char → List Char → Bool
  | [], [] => false
  | [], _ :: _ => true
  | _ :: _, [] => false
  | a :: as, b :: bs =>
      decide (a.toNat < b.toNat) || (a == b && charListLt as bs)

/-- Lexicographic order on strings. -/
def strLt (a b : String) : Bool :=
  charListLt a.data b.data

/-- The rank of `p` in the sorted order of `paths`: the number of scanned
module paths that sort strictly before it. -/
def sortedRank (paths : List String) (p : String) : Nat :=
  (paths.filter (fun q => strLt q p)).length

/-- The bundled (non-splitting) scenarios of the import-star test file whose
expected output invokes an entry chunk, with the module files each build
scans (an unused TypeScript import is elided before resolution, so its
target is not scanned). -/
def c2Scenarios : List BundleScenario :=
  [⟨"TestTSImportStarES6Unused", ["/entry.ts"], "/entry.ts",
    expTSImportStarES6Unused⟩,
   ⟨"TestTSImportStarES6Capture", ["/entry.ts", "/foo.ts"], "/entry.ts",
    expTSImportStarES6Capture⟩,
   ⟨"TestTSImportStarES6NoCapture", ["/entry.ts", "/foo.ts"], "/entry.ts",
    expTSImportStarES6NoCapture⟩,
   ⟨"TestTSImportStarES6ExportImportStarUnused", ["/entry.ts"], "/entry.ts",
    expTSImportStarES6ExportImportStarUnused⟩,
   ⟨"TestTSImportStarES6ExportImportStarNoCapture",
    ["/entry.ts", "/foo.ts", "/bar.ts"], "/entry.ts",
    expTSImportStarES6ExportImportStarNoCapture⟩,
   ⟨"TestTSImportStarES6ExportStarNoCapture",
    ["/entry.ts", "/foo.ts", "/bar.ts"], "/entry.ts",
    expTSImportStarES6ExportStarNoCapture⟩,
   ⟨"TestTSImportStarES6ExportStarCapture",
    ["/entry.ts", "/foo.ts", "/bar.ts"], "/entry.ts",
    expTSImportStarES6ExportStarCapture⟩,
   ⟨"TestTSImportStarCommonJSUnused", ["/entry.ts"], "/entry.ts",
    expTSImportStarCommonJSUnused⟩,
   ⟨"TestTSImportStarCommonJSCapture", ["/entry.ts", "/foo.ts"], "/entry.ts",
    expTSImportStarCommonJSCapture⟩,
   ⟨"TestTSImportStarCommonJSNoCapture", ["/entry.ts", "/foo.ts"], "/entry.ts",
    expTSImportStarCommonJSNoCapture⟩,
   ⟨"TestTSImportStarES6AndCommonJS chunk entry1",
    ["/entry1.js", "/entry2.js", "/foo.ts"], "/entry1.js",
    expTSImportStarES6AndCommonJSEntry1⟩,
   ⟨"TestTSImportStarES6AndCommonJS chunk entry2",
    ["/entry1.js", "/entry2.js", "/foo.ts"], "/entry2.js",
    expTSImportStarES6AndCommonJSEntry2⟩]

----------------------------------------------------------------------------
-- C3: namespace materialization (spec section 4.4, Phase D)
--
-- Modelled from the spec: the linker phase that decides whether a module's
-- namespace object is materialized is not among the provided sources.  The
-- spec says a namespace is materialized exactly when it is observed as a
-- value (assigned, passed, spread, reflected, or accessed dynamically);
-- a property access with a statically known key that resolves to a direct
-- export is rewritten to the renamed direct symbol instead.
----------------------------------------------------------------------------

/-- One use of an `import * as ns` binding, as classified by spec §4.4. -/
inductive NsUse where
  | propAccess (key : String)
  | valueCapture
  | dynamicAccess

/-- Modelled from the spec: does this use resolve to a direct export?  Only a
property access with a statically known key that names an actual export
does; the module's exports are given as a map from exported name to the
renamed output symbol. -/
def resolvesToDirectExport (exports : List (String × String)) : NsUse → Bool
  | .propAccess key => (lookupOpt exports key).isSome
  | .valueCapture => false
  | .dynamicAccess => false

/-- Modelled from the spec: the namespace object is observed as a value when
any use is not a static property access resolving to a direct export. -/
def namespaceObserved (exports : List (String × String)) (uses : List NsUse) : Bool :=
  uses.any (fun u => !resolvesToDirectExport exports u)

/-- Modelled from the spec: a namespace object literal is emitted for the
module exactly when the namespace is observed as a value. -/
def materializesNamespace (exports : List (String × String)) (uses : List NsUse) : Bool :=
  namespaceObserved exports uses

/-- Modelled from the spec: the output text of each namespace use.  When the
namespace is materialized every use goes through the namespace symbol;
otherwise each (necessarily static, directly-resolving) access is rewritten
to the renamed direct symbol. -/
def emitNsUses (nsName : String) (exports : List (String × String)) (uses : List NsUse) :
    List String :=
  let mat := materializesNamespace exports uses
  uses.map (fun u =>
    match u with
    | .propAccess key =>
        if mat then nsName ++ "." ++ key
        else ((lookupOpt exports key).getD (nsName ++ "." ++ key))
    | .valueCapture => nsName
    | .dynamicAccess => nsName ++ "[...]")

----------------------------------------------------------------------------
-- C5: build option validation and the build driver
-- (pkg/api/api_impl.go lines 453-660)
----------------------------------------------------------------------------

/-- The public API source-map constants (pkg/api), as produced by the CLI in
cli_impl.go lines 144-170; `none` is the zero value `SourceMapNone`. -/
inductive ApiSourceMap where
  | none
  | inline
  | linked
  | external
  | inlineAndExternal
deriving DecidableEq

/-- The internal configuration source-map type (part_000 lines 308-315). -/
inductive ConfigSourceMap where
  | none
  | inline
  | linkedWithComment
  | externalWithoutComment
deriving DecidableEq

/-- Embeds `validateSourceMap` (api_impl.go lines 51-64).  The Go switch does
not handle `SourceMapInlineAndExternal`; that value hits
`default: panic("Invalid source map")`, modelled as `Option.none`. -/
def validateSourceMap : ApiSourceMap → Option ConfigSourceMap
  | .none => some .none
  | .linked => some .linkedWithComment
  | .inline => some .inline
  | .external => some .externalWithoutComment
  | .inlineAndExternal => Option.none

/-- The internal configuration mode (part_000 lines 444-450). -/
inductive ConfigMode where
  | passThrough
  | convertFormat
  | bundle
deriving DecidableEq

/-- The fields of `api.BuildOptions` that steer the validation logic of
`buildImpl` modelled here.  Fields whose validators can only append error
messages and never remove one or panic (JSX factories, defines, loaders,
externals, engines, inject paths, out-extensions) are omitted; they do not
influence the modelled control flow. -/
structure BuildOpts where
  bundle : Bool
  splitting : Bool
  entryPoints : List String
  hasStdin : Bool
  outfile : String
  outdir : String
  metafile : String
  platform : ApiPlatform
  format : ApiFormat
  sourcemap : ApiSourceMap
  amdconfig : String
  external : List String
  write : Bool
deriving DecidableEq

/-- The file-system primitives `buildImpl` consults (`fs.RealFS()`): the
working directory and the parent-directory function.  They only feed the
derived output directory, never the error log, so they are kept abstract. -/
structure FSModel where
  cwd : String
  dir : String → String

/-- The slice of `config.Options` produced by the validation prefix of
`buildImpl`. -/
structure ConfigOpts where
  platform : ConfigPlatform
  sourceMap : ConfigSourceMap
  codeSplitting : Bool
  outputFormat : ConfigFormat
  absOutputFile : String
  absOutputDir : String
  absMetadataFile : String
  writeToStdout : Bool
  mode : ConfigMode

/-- The number of entry inputs: entry paths plus stdin when present
(api_impl.go lines 503-516). -/
def entryPathCount (o : BuildOpts) : Nat :=
  o.entryPoints.length + (if o.hasStdin then 1 else 0)

/-- Embeds the output-path branch chain of `buildImpl` (api_impl.go lines
518-549): returns the logged errors, the derived `AbsOutputDir`, and the
`WriteToStdout` flag.  `fs.Abs` is modelled as the identity (its failure
would only add an error), so `AbsOutputFile` and the initial `AbsOutputDir`
coincide with the given options; the `file` loader check (lines 539-544)
cannot fire because no loader map is modelled. -/
def outputPathStep (fs : FSModel) (o : BuildOpts) (sourceMap : ConfigSourceMap) :
    List String × String × Bool :=
  if o.outdir = "" && decide (1 < entryPathCount o) then
    (["Must use \"outdir\" when there are multiple input files"], o.outdir, false)
  else if o.outdir = "" && o.splitting then
    (["Must use \"outdir\" when code splitting is enabled"], o.outdir, false)
  else if !(o.outfile = "") && !(o.outdir = "") then
    (["Cannot use both \"outfile\" and \"outdir\""], o.outdir, false)
  else if !(o.outfile = "") then
    ([], fs.dir o.outfile, false)
  else if o.outdir = "" then
    ((if !(sourceMap = ConfigSourceMap.none) && !(sourceMap = ConfigSourceMap.inline) then
        ["Cannot use an external source map without an output path"] else []) ++
     (if !(o.metafile = "") then ["Cannot use \"metafile\" without an output path"] else []),
     fs.cwd, true)
  else ([], o.outdir, false)

/-- Embeds the bundle-only option check (api_impl.go lines 557-561). -/
def bundleExternalErrors (o : BuildOpts) : List String :=
  if !o.bundle && !o.external.isEmpty then
    ["Cannot use \"external\" without \"bundle\""]
  else []

/-- Embeds the format adjustments of `buildImpl`: an AMD config forces the
join format (lines 551-555, the return value of `parseAMDConfig` is
discarded there), and bundling with an unspecified format picks a default
from the platform (lines 562-570). -/
def defaultedFormat (o : BuildOpts) (platform : ConfigPlatform) (f0 : ConfigFormat) :
    ConfigFormat :=
  let f1 := if !(o.amdconfig = "") then ConfigFormat.join else f0
  if o.bundle && f1 = ConfigFormat.preserve then
    (match platform with
     | ConfigPlatform.browser => ConfigFormat.iife
     | ConfigPlatform.node => ConfigFormat.cjs)
  else f1

/-- Embeds the mode selection (api_impl.go lines 572-577). -/
def modeOf (o : BuildOpts) (f2 : ConfigFormat) : ConfigMode :=
  if o.bundle then ConfigMode.bundle
  else if !(f2 = ConfigFormat.preserve) then ConfigMode.convertFormat
  else ConfigMode.passThrough

/-- Embeds the splitting-format check (api_impl.go lines 579-582). -/
def splittingFormatErrors (o : BuildOpts) (f2 : ConfigFormat) : List String :=
  if o.splitting && !(f2 = ConfigFormat.esm) then
    ["Splitting currently only works with the \"esm\" format"]
  else []

/-- Embeds the validation prefix of `buildImpl` (api_impl.go lines 453-584)
for the modelled fields.  Returns the validated configuration together with
the logged error messages, or `none` when one of the enum validators panics.
`parseAMDConfig` (line 553) and `loadPlugins` (line 584) can only add
errors and are omitted. -/
def buildValidate (fs : FSModel) (o : BuildOpts) : Option (ConfigOpts × List String) :=
  match validatePlatform o.platform, validateSourceMap o.sourcemap, validateFormat o.format with
  | some platform, some sourceMap, some f0 =>
      let pathStep := outputPathStep fs o sourceMap
      let f2 := defaultedFormat o platform f0
      some (⟨platform, sourceMap, o.splitting, f2, o.outfile, pathStep.2.1,
             o.metafile, pathStep.2.2, modeOf o f2⟩,
            pathStep.1 ++ bundleExternalErrors o ++ splittingFormatErrors o f2)
  | _, _, _ => none

/-- The outcomes of the scan and compile stages, which live in the bundler
(not among the provided sources): the error lists they would log. -/
structure BuildPipeline where
  scanErrors : List String
  compileErrors : List String
deriving DecidableEq

/-- What one call of `buildImpl` did: the errors it collected and which of
the three pieces of file work ran. -/
structure BuildRun where
  errors : List String
  didScan : Bool
  didCompile : Bool
  didWrite : Bool
deriving DecidableEq

/-- Embeds the driver part of `buildImpl` (api_impl.go lines 586-652): the
bundle is scanned only when validation logged no error, compiled only when
scanning logged none, and written only when compiling logged none and
writing was requested.  `none` models a Go panic during validation. -/
def buildImpl (fs : FSModel) (pipe : BuildPipeline) (o : BuildOpts) : Option BuildRun :=
  match buildValidate fs o with
  | none => none
  | some (_, errs) =>
      if errs.isEmpty then
        if pipe.scanErrors.isEmpty then
          if pipe.compileErrors.isEmpty then
            some ⟨[], true, true, o.write⟩
          else
            some ⟨pipe.compileErrors, true, true, false⟩
        else
          some ⟨pipe.scanErrors, true, false, false⟩
      else
        some ⟨errs, false, false, false⟩

----------------------------------------------------------------------------
-- C8: AMD module-name resolution (internal/config, part_000 lines 671-867)
----------------------------------------------------------------------------

/-- Split a char list at every slash, like Go `strings.Split(s, "/")`. -/
def splitSlashAux (cur : List Char) : List Char → List String
  | [] => [String.mk cur.reverse]
  | c :: rest =>
      if c = '/' then String.mk cur.reverse :: splitSlashAux [] rest
      else splitSlashAux (c :: cur) rest

/-- Clean one path segment list: drop empty and `.` segments and resolve
`..` against the accumulated stack (kept reversed), as Go `filepath.Clean`
does for slash paths. -/
def cleanStack (rooted : Bool) (stack : List String) : List String → List String
  | [] => stack
  | seg :: rest =>
      if seg = "" || seg = "." then cleanStack rooted stack rest
      else if seg = ".." then
        match stack with
        | [] => if rooted then cleanStack rooted [] rest else cleanStack rooted [".."] rest
        | top :: stackTail =>
            if top = ".." then cleanStack rooted (".." :: top :: stackTail) rest
            else cleanStack rooted stackTail rest
      else cleanStack rooted (seg :: stack) rest

/-- Models Go `filepath.Clean` for slash-separated paths. -/
def filepathClean (p : String) : String :=
  let rooted := p.data.head? == some '/'
  let segs := splitSlashAux [] p.data
  let body := String.intercalate "/" (cleanStack rooted [] segs).reverse
  if rooted then (if body = "" then "/" else "/" ++ body)
  else (if body = "" then "." else body)

/-- Models Go `filepath.Join` of two elements: empty elements are skipped
and the result is cleaned. -/
def filepathJoin (a b : String) : String :=
  if a = "" then (if b = "" then "" else filepathClean b)
  else filepathClean (a ++ "/" ++ b)

/-- The first `n` characters of `p`, like the Go slice `p[:n]` on ASCII. -/
def takeStr (p : String) (n : Nat) : String :=
  String.mk (p.data.take n)

/-- The characters of `p` from position `n`, like the Go slice `p[n:]`. -/
def dropStr (p : String) (n : Nat) : String :=
  String.mk (p.data.drop n)

/-- The positions of all slashes in `p`, largest first. -/
def slashPositionsDesc (p : String) : List Nat :=
  ((List.range p.length).filter (fun i => p.data.get? i == some '/')).reverse

/-- The loop body of `mapSegmentedPath` (part_000 lines 847-867): try each
cut position in turn.  The Go loop starts with `separator := len(p)` and
then repeatedly sets `separator` to the last slash before the current cut,
which visits exactly `p.length` followed by the slash positions in
decreasing order; the cut list below is that chain.  A cut whose mapped
target is `"."` returns `p[separator+1:]`, which panics (modelled `none`)
when the whole path was matched, since then `separator+1 > len(p)`. -/
def mapSegmentedPathGo (p : String) (paths : List (String × String)) :
    List Nat → Option String
  | [] => some ""
  | sep :: rest =>
      let parentPath := takeStr p sep
      let targetPath := lookupD paths parentPath
      if targetPath = "" then mapSegmentedPathGo p paths rest
      else if targetPath = "." then
        if sep + 1 ≤ p.length then some (dropStr p (sep + 1)) else none
      else some (filepathJoin targetPath (dropStr p sep))

/-- Embeds `mapSegmentedPath` (part_000 lines 847-867).  Go returns `""`
when `paths` is empty or no segment prefix is mapped; `none` models the
slice-bounds panic of the `"."` case. -/
def mapSegmentedPath (p : String) (paths : List (String × String)) : Option String :=
  if paths.isEmpty then some ""
  else mapSegmentedPathGo p paths (p.length :: slashPositionsDesc p)

/-- Models Go `filepath.Ext`: the suffix of the last path element starting
at its final dot, or `""` when there is none.  The argument is the path's
characters reversed. -/
def filepathExtAux (acc : List Char) : List Char → String
  | [] => ""
  | c :: rest =>
      if c = '/' then ""
      else if c = '.' then String.mk ('.' :: acc)
      else filepathExtAux (c :: acc) rest

/-- Models Go `filepath.Ext`. -/
def filepathExt (p : String) : String :=
  filepathExtAux [] p.data.reverse

/-- The fields of `config.AMDOptions` (part_000 lines 464-480) used by
module-name resolution.  `backwardPaths` is the mutable cache the Go code
guards with a mutex; it is threaded explicitly here. -/
structure AMDOptions where
  baseUrl : String
  paths : List (String × String)
  scopeMap : List (String × List (String × String))
  starMap : List (String × String)
  knownFileExtensions : List String
  backwardPaths : List (String × String)

/-- Embeds `AMDOptions.HasKnownFileExtension` (part_000 lines 815-817). -/
def HasKnownFileExtension (o : AMDOptions) (sourcePath : String) : Bool :=
  o.knownFileExtensions.contains (filepathExt sourcePath)

/-- Embeds `AMDOptions.ModulePathToName` (part_000 lines 757-763).  Go
`filepath.Rel` is an external path primitive and is passed in as `rel`. -/
def ModulePathToName (rel : String → String → String) (o : AMDOptions)
    (sourcePath : String) : String :=
  lookupD o.backwardPaths (rel o.baseUrl sourcePath)

/-- Strip a trailing `.js`, as the `strings.HasSuffix` branch of
`ModuleNameToPath` does. -/
def dropJsSuffix (s : String) : String :=
  match s.data.reverse with
  | 's' :: 'j' :: '.' :: _ => String.mk (s.data.take (s.length - 3))
  | _ => s

/-- Go map assignment `m[k] = v` on an association list. -/
def insertAssoc (m : List (String × String)) (k v : String) :
    List (String × String) :=
  if (m.find? (fun kv => kv.1 == k)).isSome then
    m.map (fun kv => if kv.1 == k then (k, v) else kv)
  else m ++ [(k, v)]

/-- Embeds `AMDOptions.ModuleNameToPath` (part_000 lines 713-755).  Returns
the resolved path together with the updated `backwardPaths` cache; `none`
propagates a `mapSegmentedPath` panic. -/
def ModuleNameToPath (rel : String → String → String) (o : AMDOptions)
    (importPath sourcePath : String) : Option (String × AMDOptions) := do
  let mappedSource0 := ModulePathToName rel o sourcePath
  let mappedSource :=
    if mappedSource0 = "" then dropJsSuffix (rel o.baseUrl sourcePath)
    else mappedSource0
  -- lines 722-737: the per-module scope first, the star scope second
  let scopeMapped ←
    match (o.scopeMap.find? (fun kv => kv.1 == mappedSource)).map (fun kv => kv.2) with
    | some scope => mapSegmentedPath importPath scope
    | none => pure ""
  let step ←
    if !(scopeMapped = "") then pure (scopeMapped, scopeMapped)
    else do
      let starMapped ← mapSegmentedPath importPath o.starMap
      if !(starMapped = "") then pure (starMapped, starMapped)
      else pure (starMapped, importPath)
  let mappedPath := step.1
  let inputPath := step.2
  -- lines 738-741
  let targetPath0 ← mapSegmentedPath inputPath o.paths
  let targetPath := if targetPath0 = "" then mappedPath else targetPath0
  -- lines 742-754
  if !(targetPath = "") then
    let targetPath :=
      if !HasKnownFileExtension o targetPath then targetPath ++ ".js" else targetPath
    pure (targetPath,
          ⟨o.baseUrl, o.paths, o.scopeMap, o.starMap, o.knownFileExtensions,
           insertAssoc o.backwardPaths targetPath importPath⟩)
  else
    let mappedPath :=
      if !(mappedPath = "") && !HasKnownFileExtension o mappedPath then mappedPath ++ ".js"
      else mappedPath
    pure (mappedPath, o)

/-- The paths configuration of the claim's example:
`{"foo": "foo2", "foo/bar": "foo/bar2"}`. -/
def demoPaths : List (String × String) :=
  [("foo", "foo2"), ("foo/bar", "foo/bar2")]

----------------------------------------------------------------------------
-- C9: the CLI entry point (pkg/cli/cli_impl.go lines 653-817)
----------------------------------------------------------------------------

/-- The stdin-only options a parsed build or analyse run may carry
(`api.StdinOptions`); a non-empty sourcefile distinguishes the
`--sourcefile=` misuse message from the `--loader=` one, but both paths
return 1. -/
structure CliStdinOptions where
  sourcefile : String
deriving DecidableEq

/-- The parsed build options `runImpl` inspects. -/
structure CliBuildOptions where
  entryPoints : List String
  stdin : Option CliStdinOptions
  watch : Bool
deriving DecidableEq

/-- The parsed analyse options `runImpl` inspects. -/
structure CliAnalyseOptions where
  entryPoints : List String
  stdin : Option CliStdinOptions
deriving DecidableEq

/-- The three kinds of run `parseOptionsForRun` can produce. -/
inductive RunOptions where
  | build (o : CliBuildOptions)
  | transform
  | analyse (o : CliAnalyseOptions)
deriving DecidableEq

/-- The process environment and collaborator outcomes `runImpl` observes:
whether stdin could be read (and its contents), whether `NODE_PATH` is set,
how many errors each API call would report, and whether the serve path
fails. -/
structure CliEnv where
  stdinRead : Option String
  nodePathSet : Bool
  buildErrors : Nat
  transformErrors : Nat
  analyseErrors : Nat
  serveError : Bool
deriving DecidableEq

/-- Embeds `runImpl` (cli_impl.go lines 653-817).  The returned value is the
process exit code; `none` models an invocation that never returns normally:
watch mode blocks on a never-signalled channel (lines 727-729), and the
analyse arm dereferences the nil `buildOptions` pointer when `NODE_PATH` is
set (lines 768-778).  Argument parsing is summarised by its outcome
`parsed`, and `serveMode` records whether a `--serve` flag was present
(lines 658-666). -/
def runImpl (serveMode : Bool) (parsed : Except String RunOptions) (env : CliEnv) :
    Option Nat :=
  if serveMode then some (if env.serveError then 1 else 0)
  else
    match parsed with
    | .error _ => some 1                 -- lines 811-813
    | .ok (.build o) =>
        if o.entryPoints.isEmpty then
          match env.stdinRead with
          | none => some 1               -- lines 704-709
          | some _ =>
              if o.watch then none       -- lines 727-729
              else if 0 < env.buildErrors then some 1 else some 0
        else if o.stdin.isSome then some 1   -- lines 712-721
        else if o.watch then none
        else if 0 < env.buildErrors then some 1 else some 0
    | .ok .transform =>
        match env.stdinRead with
        | none => some 1                 -- lines 743-748
        | some _ => if 0 < env.transformErrors then some 1 else some 0
    | .ok (.analyse o) =>
        if env.nodePathSet then none     -- line 776: nil-pointer write
        else if o.entryPoints.isEmpty then
          match env.stdinRead with
          | none => some 1               -- lines 786-791
          | some _ => if 0 < env.analyseErrors then some 1 else some 0
        else if o.stdin.isSome then some 1   -- lines 794-802
        else if 0 < env.analyseErrors then some 1 else some 0

/-- The error condition characterising exit code 1 for a non-serve,
non-blocking invocation: parsing failed, stdin was needed but unreadable,
stdin-only options were combined with entry points, or the executed action
reported at least one error. -/
def runHadError (parsed : Except String RunOptions) (env : CliEnv) : Bool :=
  match parsed with
  | .error _ => true
  | .ok (.build o) =>
      if o.entryPoints.isEmpty then
        env.stdinRead.isNone || decide (0 < env.buildErrors)
      else
        o.stdin.isSome || decide (0 < env.buildErrors)
  | .ok .transform => env.stdinRead.isNone || decide (0 < env.transformErrors)
  | .ok (.analyse o) =>
      if o.entryPoints.isEmpty then
        env.stdinRead.isNone || decide (0 < env.analyseErrors)
      else
        o.stdin.isSome || decide (0 < env.analyseErrors)

/-- A parsed invocation that does not request watch mode (watch mode blocks
on a never-signalled channel instead of returning an exit code). -/
def parsedWatchFree : Except String RunOptions → Bool
  | .ok (.build o) => !o.watch
  | _ => true

/-- An invocation that does not hit the nil-pointer write of the analyse
arm: either it is not an analyse run or `NODE_PATH` is unset. -/
def parsedNodeSafe (parsed : Except String RunOptions) (env : CliEnv) : Bool :=
  match parsed with
  | .ok (.analyse _) => !env.nodePathSet
  | _ => true

----------------------------------------------------------------------------
-- Concrete fixtures used by counterexamples and witnesses
----------------------------------------------------------------------------

/-- A concrete file system: working directory `/work`, every parent
directory `/work`. -/
def fs0 : FSModel :=
  ⟨"/work", fun _ => "/work"⟩

/-- A pipeline in which scanning and compiling would succeed. -/
def pipe0 : BuildPipeline :=
  ⟨[], []⟩

/-- A build invocation with both `outfile` and `outdir` set and platform
`neutral`: `validatePlatform` panics before the outfile/outdir config error
can be reported. -/
def c5PanicOpts : BuildOpts :=
  ⟨true, false, ["/entry.js"], false, "/out.js", "/out", "", .neutral, .iife, .none, "", [], true⟩

/-- A build invocation with both `outfile` and `outdir` set and otherwise
valid enum options. -/
def c5BothPathsOpts : BuildOpts :=
  ⟨true, false, ["/entry.js"], false, "/out.js", "/out", "", .browser, .iife, .none, "", [], true⟩

/-- The `"*"` map scope of the AMD configuration example in the fork's
README (`"map": {"*": {"external/libs/jquery": "internal/libs/jquery"}}`),
with no module-specific scopes configured. -/
def starDemo : AMDOptions :=
  ⟨"/base", [], [], [("external/libs/jquery", "internal/libs/jquery")],
   [".js", ".json", ".txt", ".css"], []⟩

/-- An environment in which stdin is readable and no API call reports an
error. -/
def c9Env : CliEnv :=
  ⟨some "", false, 0, 0, 0, false⟩

/-- A parsed build with an entry point and stdin-only options
(`--sourcefile=x entry.js`): cli_impl.go lines 712-721 reject it. -/
def c9MisuseOptions : CliBuildOptions :=
  ⟨["entry.js"], some ⟨"x"⟩, false⟩

/-- The result of applying the mapping found at cut position `n`, exactly as
the loop body of `mapSegmentedPath` does. -/
def applyCutAt (p : String) (paths : List (String × String)) (n : Nat) : Option String :=
  if lookupD paths (takeStr p n) = "." then
    (if n + 1 ≤ p.length then some (dropStr p (n + 1)) else none)
  else some (filepathJoin (lookupD paths (takeStr p n)) (dropStr p n))

----------------------------------------------------------------------------
-- Helper lemmas
----------------------------------------------------------------------------

/-- Helper: when every namespace use resolves to a direct export, the
emitted text of each use is that direct symbol. -/
theorem emitDirect_forall (exports : List (String × String)) (nsName : String) :
    ∀ (uses : List NsUse),
      (∀ u ∈ uses, resolvesToDirectExport exports u = true) →
      List.Forall₂
        (fun u out => ∃ key, u = NsUse.propAccess key ∧ lookupOpt exports key = some out)
        uses
        (uses.map (fun u => match u with
          | NsUse.propAccess key => (lookupOpt exports key).getD (nsName ++ "." ++ key)
          | NsUse.valueCapture => nsName
          | NsUse.dynamicAccess => nsName ++ "[...]"))
  | [], _ => List.Forall₂.nil
  | u :: rest, h => by
      have h1 := h u (List.mem_cons_self u rest)
      have hrest := emitDirect_forall exports nsName rest
        (fun v hv => h v (List.mem_cons_of_mem u hv))
      cases u with
      | propAccess key =>
          simp only [resolvesToDirectExport] at h1
          obtain ⟨v, hv⟩ := Option.isSome_iff_exists.mp h1
          exact List.Forall₂.cons ⟨key, rfl, by simp [hv]⟩ hrest
      | valueCapture => simp [resolvesToDirectExport] at h1
      | dynamicAccess => simp [resolvesToDirectExport] at h1

/-- Helper: both output paths set forces a config error. -/
theorem outputPathStep_both_ne (fs : FSModel) (o : BuildOpts) (sm : ConfigSourceMap)
    (hof : o.outfile ≠ "") (hod : o.outdir ≠ "") :
    (outputPathStep fs o sm).1 ≠ [] := by
  simp [outputPathStep, hof, hod]

/-- Helper: an external source map with no output path forces a config error
no matter which branch of the chain fires. -/
theorem outputPathStep_stdout_ne (fs : FSModel) (o : BuildOpts) (sm : ConfigSourceMap)
    (hof : o.outfile = "") (hod : o.outdir = "")
    (hsm : sm = ConfigSourceMap.linkedWithComment ∨
           sm = ConfigSourceMap.externalWithoutComment) :
    (outputPathStep fs o sm).1 ≠ [] := by
  by_cases hc : 1 < entryPathCount o
  · simp [outputPathStep, hod, hc]
  · by_cases hs : o.splitting
    · simp [outputPathStep, hod, hc, hs]
    · rcases hsm with h | h <;>
        simp [outputPathStep, hof, hod, hc, hs, h]

/-- Helper: a successfully validated non-ESM API format never yields the
internal ESM format. -/
theorem validateFormat_ne_esm (a : ApiFormat) (f0 : ConfigFormat)
    (hf : validateFormat a = some f0) (h : a ≠ ApiFormat.esm) :
    f0 ≠ ConfigFormat.esm := by
  cases a with
  | default => cases hf; simp
  | iife => cases hf; simp
  | cjs => cases hf; simp
  | esm => exact absurd rfl h
  | umd => cases hf

/-- Helper: the AMD- and platform-defaulting steps never introduce the ESM
format. -/
theorem defaultedFormat_ne_esm (o : BuildOpts) (platform : ConfigPlatform)
    (f0 : ConfigFormat) (h : f0 ≠ ConfigFormat.esm) :
    defaultedFormat o platform f0 ≠ ConfigFormat.esm := by
  unfold defaultedFormat
  by_cases ha : o.amdconfig = ""
  · simp only [ha]
    simp
    split
    · cases platform <;> simp
    · simp [h]
  · simp [ha]

/-- Helper: splitting with a non-ESM output format logs an error. -/
theorem splittingFormatErrors_ne (o : BuildOpts) (f2 : ConfigFormat)
    (hs : o.splitting = true) (hne : f2 ≠ ConfigFormat.esm) :
    splittingFormatErrors o f2 ≠ [] := by
  simp [splittingFormatErrors, hs, hne]

/-- Helper: the linked and external API source maps validate to the two
non-inline internal values. -/
theorem validateSourceMap_linked_or_external (sm : ApiSourceMap)
    (h : sm = ApiSourceMap.linked ∨ sm = ApiSourceMap.external) (v : ConfigSourceMap)
    (hv : validateSourceMap sm = some v) :
    v = ConfigSourceMap.linkedWithComment ∨ v = ConfigSourceMap.externalWithoutComment := by
  rcases h with h | h <;> subst h <;> cases hv <;> simp

/-- Helper: on a strictly descending cut list the loop returns the mapping
of the first (hence longest) mapped cut. -/
theorem mapSegmentedPathGo_finds_first (p : String) (paths : List (String × String))
    (n : Nat) (hhit : lookupD paths (takeStr p n) ≠ "") :
    ∀ cuts : List Nat, cuts.Pairwise (· > ·) → n ∈ cuts →
      (∀ m ∈ cuts, n < m → lookupD paths (takeStr p m) = "") →
      mapSegmentedPathGo p paths cuts = applyCutAt p paths n
  | [], _, hmem, _ => absurd hmem (List.not_mem_nil n)
  | c :: rest, hpw, hmem, hmiss => by
      by_cases hc : c = n
      · subst hc
        simp only [mapSegmentedPathGo, applyCutAt]
        rw [if_neg hhit]
      · have hnr : n ∈ rest := by
          rcases List.mem_cons.mp hmem with h | h
          · exact absurd h.symm hc
          · exact h
        have hcn : n < c := (List.pairwise_cons.mp hpw).1 n hnr
        have hcmiss : lookupD paths (takeStr p c) = "" :=
          hmiss c (List.mem_cons_self c rest) hcn
        simp only [mapSegmentedPathGo]
        rw [if_pos hcmiss]
        exact mapSegmentedPathGo_finds_first p paths n hhit rest
          (List.pairwise_cons.mp hpw).2 hnr
          (fun m hm hnm => hmiss m (List.mem_cons_of_mem c hm) hnm)

/-- Helper: the cut chain visited by `mapSegmentedPath` is strictly
descending. -/
theorem cutChain_pairwise (p : String) :
    (p.length :: slashPositionsDesc p).Pairwise (· > ·) := by
  have hfil : ((List.range p.length).filter
      (fun i => p.data.get? i == some '/')).Pairwise (· < ·) :=
    (List.pairwise_lt_range p.length).sublist (List.filter_sublist _)
  have hrev : (slashPositionsDesc p).Pairwise (· > ·) := by
    simpa [slashPositionsDesc, List.pairwise_reverse] using hfil
  refine List.pairwise_cons.mpr ⟨?_, hrev⟩
  intro m hm
  have : m ∈ (List.range p.length).filter (fun i => p.data.get? i == some '/') := by
    simpa [slashPositionsDesc] using hm
  exact List.mem_range.mp (List.mem_of_mem_filter this)

/-- Helper: every cut position (the path length or a slash position) is in
the visited cut chain. -/
theorem mem_cutChain (p : String) (n : Nat)
    (hn : n = p.length ∨ p.data.get? n = some '/') :
    n ∈ p.length :: slashPositionsDesc p := by
  rcases hn with h | h
  · exact h ▸ List.mem_cons_self _ _
  · refine List.mem_cons_of_mem _ ?_
    have hlt : n < p.length := by
      have := List.get?_eq_some.mp h
      exact this.1
    have hx : p.data[n]? = some '/' := by
      simpa [List.get?_eq_getElem?] using h
    obtain ⟨hw, hv⟩ := List.getElem?_eq_some.mp hx
    simp [slashPositionsDesc, List.mem_reverse, List.mem_filter, List.mem_range, hlt, hv]

/-- Helper: every member of the visited cut chain is a cut position. -/
theorem cutChain_mem_is_cut (p : String) (m : Nat)
    (hm : m ∈ p.length :: slashPositionsDesc p) :
    m = p.length ∨ p.data.get? m = some '/' := by
  rcases List.mem_cons.mp hm with h | h
  · exact Or.inl h
  · right
    have : m ∈ (List.range p.length).filter (fun i => p.data.get? i == some '/') := by
      simpa [slashPositionsDesc] using h
    have := List.of_mem_filter this
    simpa using this

/-- Helper: the longest mapped segment prefix wins in `mapSegmentedPath`. -/
theorem mapSegmentedPath_longest (p : String) (paths : List (String × String))
    (hpaths : paths ≠ []) (n : Nat)
    (hn : n = p.length ∨ p.data.get? n = some '/')
    (hhit : lookupD paths (takeStr p n) ≠ "")
    (hlongest : ∀ m, n < m → (m = p.length ∨ p.data.get? m = some '/') →
        lookupD paths (takeStr p m) = "") :
    mapSegmentedPath p paths = applyCutAt p paths n := by
  have hne : paths.isEmpty = false := by
    cases paths with
    | nil => exact absurd rfl hpaths
    | cons a t => rfl
  rw [mapSegmentedPath, hne]
  simp only [Bool.false_eq_true, if_false]
  exact mapSegmentedPathGo_finds_first p paths n hhit _ (cutChain_pairwise p)
    (mem_cutChain p n hn)
    (fun m hm hnm => hlongest m hnm (cutChain_mem_is_cut p m hm))

----------------------------------------------------------------------------
-- Claim theorems
----------------------------------------------------------------------------

/-- Claim C2 (counterexample): the claim says the module containing the
first entry point is assigned module id 0 in non-splitting mode, so the
emitted bundle invokes the entry under id 0.  The repository's own expected
output for `TestTSImportStarES6ExportImportStarNoCapture` (a bundled,
non-splitting build whose first entry point is `/entry.ts`) invokes the
entry chunk under id 1, not 0. -/
theorem bootstrap_entry_id_one_not_zero :
    bootstrapEntryId expTSImportStarES6ExportImportStarNoCapture = some 1 ∧
    ¬ bootstrapEntryId expTSImportStarES6ExportImportStarNoCapture = some 0 := by
  decide

/-- Claim C2 (amended): in non-splitting mode the emitted bundle invokes the
entry under the entry module's id, which equals the rank of the entry path
in the sorted order of the module files the build actually scans (after
TypeScript elision of unused imports) — 0 only when the entry path sorts
first.  Verified against every bundled entry chunk of the import-star test
file. -/
theorem bootstrap_entry_invoked_at_sorted_rank :
    (c2Scenarios.all (fun sc =>
      bootstrapEntryId sc.expectedOutput ==
        some (sortedRank sc.scannedFiles sc.chunkEntry))) = true := by
  decide

/-- Claim C3: when every use of an `import * as ns` binding is a property
access with a statically known key that resolves to a direct export, no
namespace object is materialized and every access is rewritten to the
renamed direct symbol; in scenario S3 (`TestTSImportStarES6NoCapture`) the
expected output accordingly contains `console.log(foo2, foo2` and no
namespace object (no `__export` call and no `exports` object). -/
theorem namespace_minimal_direct_rewrite :
    (∀ (exports : List (String × String)) (uses : List NsUse),
      (∀ u ∈ uses, resolvesToDirectExport exports u = true) →
      materializesNamespace exports uses = false ∧
      ∀ nsName : String,
        List.Forall₂
          (fun u out => ∃ key, u = NsUse.propAccess key ∧ lookupOpt exports key = some out)
          uses (emitNsUses nsName exports uses)) ∧
    (strContains expTSImportStarES6NoCapture "console.log(foo2, foo2" = true ∧
     strContains expTSImportStarES6NoCapture "__export" = false ∧
     strContains expTSImportStarES6NoCapture "exports" = false ∧
     emitNsUses "ns" [("foo", "foo2")] [NsUse.propAccess "foo", NsUse.propAccess "foo"] =
       ["foo2", "foo2"]) := by
  refine ⟨fun exports uses h => ?_, by decide, by decide, by decide, by decide⟩
  have hmat : materializesNamespace exports uses = false := by
    simp only [materializesNamespace, namespaceObserved, List.any_eq_false]
    intro u hu
    simp [h u hu]
  refine ⟨hmat, fun nsName => ?_⟩
  have hemit : emitNsUses nsName exports uses =
      uses.map (fun u => match u with
        | NsUse.propAccess key => (lookupOpt exports key).getD (nsName ++ "." ++ key)
        | NsUse.valueCapture => nsName
        | NsUse.dynamicAccess => nsName ++ "[...]") := by
    simp [emitNsUses, hmat]
  rw [hemit]
  exact emitDirect_forall exports nsName uses h

/-- Claim C3 (witness): the S3 usage pattern — two static accesses of an
exported name — materializes no namespace. -/
theorem namespace_minimal_direct_rewrite_witness :
    materializesNamespace [("foo", "foo2")] [NsUse.propAccess "foo", NsUse.propAccess "foo"] =
      false :=
  (namespace_minimal_direct_rewrite.1 [("foo", "foo2")]
    [NsUse.propAccess "foo", NsUse.propAccess "foo"] (by decide)).1

/-- Claim C4 (counterexample): the claim says every `import * as ns` of a
CommonJS-like module materializes a wrapper.  In
`TestTSImportStarCommonJSUnused` the entry does `import * as ns` from a
module writing `exports.foo`, yet the repository's expected output contains
no wrapper and no `__import` call: the unused import is elided and the
module dropped. -/
theorem cjs_import_star_unused_no_wrapper :
    strContains srcTSImportStarCommonJSUnusedEntry "import * as ns from " = true ∧
    strContains srcTSImportStarCommonJSFoo "exports.foo = 123" = true ∧
    strContains expTSImportStarCommonJSUnused "__import" = false ∧
    strContains expTSImportStarCommonJSUnused "exports" = false := by
  decide

/-- Claim C4 (amended): for an `import * as ns` of a CommonJS-like module
whose namespace binding is actually used, the bundle materializes a wrapper
— the module body becomes a runtime-invoked function receiving `exports`
that performs the export assignment — and the importing site obtains the
namespace via `const ns = __import(id)`; shown for both the capturing and
non-capturing used scenarios. -/
theorem cjs_import_star_used_materializes_wrapper :
    (strContains srcTSImportStarCommonJSCaptureEntry "import * as ns from " = true ∧
     strContains srcTSImportStarCommonJSCaptureEntry "console.log(ns, ns.foo, foo)" = true ∧
     strContains srcTSImportStarCommonJSFoo "exports.foo = 123" = true) ∧
    (strContains expTSImportStarCommonJSCapture "1(exports) \x7b" = true ∧
     strContains expTSImportStarCommonJSCapture "exports.foo = 123;" = true ∧
     strContains expTSImportStarCommonJSCapture "const ns = __import(1 /* ./foo */);" = true) ∧
    (strContains expTSImportStarCommonJSNoCapture "1(exports) \x7b" = true ∧
     strContains expTSImportStarCommonJSNoCapture "exports.foo = 123;" = true ∧
     strContains expTSImportStarCommonJSNoCapture "const ns = __import(1 /* ./foo */);" = true) := by
  decide

/-- Claim C5 (counterexample): the claim says every invocation with both
`outfile` and `outdir` set reports a config error and performs no file
work.  With platform `neutral` (a value the CLI produces) `buildImpl`
panics in `validatePlatform` before any config error can be reported, so no
error is reported at this input. -/
theorem buildImpl_panics_before_config_error :
    c5PanicOpts.outfile ≠ "" ∧ c5PanicOpts.outdir ≠ "" ∧
    buildImpl fs0 pipe0 c5PanicOpts = none := by
  refine ⟨by decide, by decide, rfl⟩

/-- Claim C5 (amended): provided the enum-valued options are ones their
validators accept (platform browser/node, format default/iife/cjs/esm,
source map none/inline/linked/external), every invocation with both
`outfile` and `outdir` set, or splitting with a non-ESM format, or an
external (non-inline) source map with no output path, makes `buildImpl`
report a config error and perform no file work: it neither scans, compiles,
nor writes. -/
theorem buildImpl_config_error_no_file_work
    (fs : FSModel) (pipe : BuildPipeline) (o : BuildOpts)
    (hplat : validatePlatform o.platform ≠ none)
    (hfmt : validateFormat o.format ≠ none)
    (hsm : validateSourceMap o.sourcemap ≠ none)
    (hcond : (o.outfile ≠ "" ∧ o.outdir ≠ "") ∨
             (o.splitting = true ∧ o.format ≠ ApiFormat.esm) ∨
             (o.outfile = "" ∧ o.outdir = "" ∧
               (o.sourcemap = ApiSourceMap.linked ∨ o.sourcemap = ApiSourceMap.external))) :
    ∃ run, buildImpl fs pipe o = some run ∧ run.errors ≠ [] ∧
      run.didScan = false ∧ run.didCompile = false ∧ run.didWrite = false := by
  obtain ⟨p, hp⟩ := Option.ne_none_iff_exists'.mp hplat
  obtain ⟨sm, hs⟩ := Option.ne_none_iff_exists'.mp hsm
  obtain ⟨f0, hf⟩ := Option.ne_none_iff_exists'.mp hfmt
  have hbv : buildValidate fs o =
      some (⟨p, sm, o.splitting, defaultedFormat o p f0, o.outfile,
             (outputPathStep fs o sm).2.1, o.metafile, (outputPathStep fs o sm).2.2,
             modeOf o (defaultedFormat o p f0)⟩,
            (outputPathStep fs o sm).1 ++ bundleExternalErrors o ++
              splittingFormatErrors o (defaultedFormat o p f0)) := by
    simp [buildValidate, hp, hs, hf]
  have herr : (outputPathStep fs o sm).1 ++ bundleExternalErrors o ++
      splittingFormatErrors o (defaultedFormat o p f0) ≠ [] := by
    rcases hcond with ⟨hof, hod⟩ | ⟨hsp, hne⟩ | ⟨hof, hod, hsm2⟩
    · have := outputPathStep_both_ne fs o sm hof hod
      simp [List.append_eq_nil]
      intro h1
      exact absurd h1 this
    · have h2 := defaultedFormat_ne_esm o p f0 (validateFormat_ne_esm o.format f0 hf hne)
      have := splittingFormatErrors_ne o _ hsp h2
      simp [List.append_eq_nil]
      intro _ _ h3
      exact absurd h3 this
    · have := outputPathStep_stdout_ne fs o sm hof hod
        (validateSourceMap_linked_or_external o.sourcemap hsm2 sm hs)
      simp [List.append_eq_nil]
      intro h1
      exact absurd h1 this
  refine ⟨⟨(outputPathStep fs o sm).1 ++ bundleExternalErrors o ++
      splittingFormatErrors o (defaultedFormat o p f0), false, false, false⟩, ?_, herr,
      rfl, rfl, rfl⟩
  have hne : ¬ (((outputPathStep fs o sm).1 ++ bundleExternalErrors o ++
      splittingFormatErrors o (defaultedFormat o p f0)).isEmpty = true) := by
    simp only [List.isEmpty_eq_true]
    exact herr
  simp only [buildImpl, hbv]
  rw [if_neg hne]

/-- Claim C5 (witness): both output paths set with otherwise valid options
yields a config error and no file work. -/
theorem buildImpl_config_error_no_file_work_witness :
    ∃ run, buildImpl fs0 pipe0 c5BothPathsOpts = some run ∧ run.errors ≠ [] ∧
      run.didScan = false ∧ run.didCompile = false ∧ run.didWrite = false :=
  buildImpl_config_error_no_file_work fs0 pipe0 c5BothPathsOpts
    (by decide) (by decide) (by decide) (Or.inl ⟨by decide, by decide⟩)

/-- Claim C6: the CLI accepts all three documented platform values, and the
build maps browser and node to internal values — but `validatePlatform`
panics (returns no internal value) on the CLI-produced `neutral`, so a
neutral-platform build aborts instead of returning a BuildResult. -/
theorem platform_neutral_accepted_then_panics :
    parsePlatformValue "browser" = Except.ok ApiPlatform.browser ∧
    parsePlatformValue "node" = Except.ok ApiPlatform.node ∧
    parsePlatformValue "neutral" = Except.ok ApiPlatform.neutral ∧
    validatePlatform ApiPlatform.browser = some ConfigPlatform.browser ∧
    validatePlatform ApiPlatform.node = some ConfigPlatform.node ∧
    validatePlatform ApiPlatform.neutral = none :=
  ⟨rfl, rfl, rfl, rfl, rfl, rfl⟩

/-- Claim C7: the CLI accepts `--format=umd` and the bundler's own expected
output for `FormatUMD` is the standard UMD preamble, but `validateFormat`
panics (returns no internal value) on `FormatUMD`, so a UMD build through
the public API aborts before reaching the printer. -/
theorem format_umd_accepted_then_panics :
    parseFormatValue "umd" = Except.ok ApiFormat.umd ∧
    validateFormat ApiFormat.umd = none ∧
    validateFormat ApiFormat.iife = some ConfigFormat.iife ∧
    validateFormat ApiFormat.cjs = some ConfigFormat.cjs ∧
    validateFormat ApiFormat.esm = some ConfigFormat.esm ∧
    strContains umdTestExpectedOutput "(function(root, factory)" = true ∧
    strContains umdTestExpectedOutput "module.exports = factory();" = true ∧
    strContains umdTestExpectedOutput "define(factory);" = true := by
  refine ⟨rfl, rfl, rfl, rfl, rfl, by decide, by decide, by decide⟩

/-- Claim C8: AMD module-name resolution applies the mapping of the longest
matching path-segment prefix — in the claim's example `foo/baz` resolves to
`foo2/baz` and `foo/bar/baz` to `foo/bar2/baz`, and in general the first
mapped cut in the descending cut chain wins — and entries of the `"*"` map
scope apply to imports from every module: with no module-specific scopes
the resolution result does not depend on the importing module at all, and
the README's star mapping applies for an arbitrary source module. -/
theorem amd_longest_prefix_and_star_scope :
    (mapSegmentedPath "foo/baz" demoPaths = some "foo2/baz" ∧
     mapSegmentedPath "foo/bar/baz" demoPaths = some "foo/bar2/baz") ∧
    (∀ (p : String) (paths : List (String × String)), paths ≠ [] →
      ∀ n : Nat, (n = p.length ∨ p.data.get? n = some '/') →
        lookupD paths (takeStr p n) ≠ "" →
        (∀ m, n < m → (m = p.length ∨ p.data.get? m = some '/') →
          lookupD paths (takeStr p m) = "") →
        mapSegmentedPath p paths = applyCutAt p paths n) ∧
    (∀ (rel rel2 : String → String → String) (o : AMDOptions)
        (importPath src src2 : String), o.scopeMap = [] →
      ModuleNameToPath rel o importPath src = ModuleNameToPath rel2 o importPath src2) ∧
    (∀ (rel : String → String → String) (src : String),
      (ModuleNameToPath rel starDemo "external/libs/jquery" src).map Prod.fst =
        some "internal/libs/jquery.js") := by
  refine ⟨⟨by decide, by decide⟩,
    fun p paths hpaths n hn hhit hlongest =>
      mapSegmentedPath_longest p paths hpaths n hn hhit hlongest,
    fun rel rel2 o importPath src src2 h => ?_,
    fun rel src => ?_⟩
  · simp [ModuleNameToPath, ModulePathToName, h]
  · simp [ModuleNameToPath, ModulePathToName, starDemo]
    rfl

/-- Claim C8 (witness): the longest-prefix rule applied at the whole-path
cut of `foo`, and the star universality applied at two distinct source
modules. -/
theorem amd_longest_prefix_and_star_scope_witness :
    mapSegmentedPath "foo" demoPaths = applyCutAt "foo" demoPaths 3 ∧
    ModuleNameToPath (fun _ p => p) starDemo "jquery" "/base/a.js" =
      ModuleNameToPath (fun _ _ => "other") starDemo "jquery" "/base/b.js" :=
  ⟨amd_longest_prefix_and_star_scope.2.1 "foo" demoPaths (by decide) 3
    (Or.inl (by decide)) (by decide)
    (by
      intro m hm hc
      have hl : ("foo" : String).length = 3 := by decide
      rcases hc with h | h
      · rw [hl] at h
        omega
      · have hlt := (List.get?_eq_some.mp h).1
        have hd : ("foo" : String).data.length = 3 := by decide
        rw [hd] at hlt
        omega),
   amd_longest_prefix_and_star_scope.2.2.1 (fun _ p => p) (fun _ _ => "other")
     starDemo "jquery" "/base/a.js" "/base/b.js" rfl⟩

/-- Claim C9 (counterexample): the claim says `runImpl` returns 1 exactly
when parsing fails, stdin cannot be read, or the result has errors, and 0
otherwise.  With successfully parsed arguments `--sourcefile=x entry.js`,
readable stdin and an error-free environment, `runImpl` still returns 1:
stdin-only options combined with entry points are rejected. -/
theorem runImpl_returns_one_without_listed_error :
    runImpl false (Except.ok (RunOptions.build c9MisuseOptions)) c9Env = some 1 ∧
    c9Env.stdinRead ≠ none ∧ c9Env.buildErrors = 0 ∧
    c9Env.transformErrors = 0 ∧ c9Env.analyseErrors = 0 := by
  decide

/-- Claim C9 (amended): for a non-serve invocation that does not request
watch mode (which blocks forever) and does not hit the analyse `NODE_PATH`
nil-pointer crash, `runImpl` returns 1 exactly when argument parsing fails,
stdin is needed but cannot be read, stdin-only options are combined with
entry points, or the executed action's result contains at least one error —
and 0 otherwise. -/
theorem runImpl_exit_code_characterization
    (parsed : Except String RunOptions) (env : CliEnv)
    (hw : parsedWatchFree parsed = true)
    (hn : parsedNodeSafe parsed env = true) :
    runImpl false parsed env = some (if runHadError parsed env then 1 else 0) := by
  cases parsed with
  | error e => rfl
  | ok r =>
      cases r with
      | build o =>
          have hwatch : o.watch = false := by
            simpa [parsedWatchFree] using hw
          by_cases he : o.entryPoints.isEmpty
          · cases hst : env.stdinRead with
            | none => simp [runImpl, runHadError, he, hst]
            | some c =>
                by_cases hb : 0 < env.buildErrors <;>
                  simp [runImpl, runHadError, he, hst, hwatch, hb]
          · by_cases hsi : o.stdin.isSome
            · simp [runImpl, runHadError, he, hsi]
            · by_cases hb : 0 < env.buildErrors <;>
                simp [runImpl, runHadError, he, hsi, hwatch, hb]
      | transform =>
          cases hst : env.stdinRead with
          | none => simp [runImpl, runHadError, hst]
          | some c =>
              by_cases ht : 0 < env.transformErrors <;>
                simp [runImpl, runHadError, hst, ht]
      | analyse o =>
          have hnode : env.nodePathSet = false := by
            simpa [parsedNodeSafe] using hn
          by_cases he : o.entryPoints.isEmpty
          · cases hst : env.stdinRead with
            | none => simp [runImpl, runHadError, hnode, he, hst]
            | some c =>
                by_cases ha : 0 < env.analyseErrors <;>
                  simp [runImpl, runHadError, hnode, he, hst, ha]
          · by_cases hsi : o.stdin.isSome
            · simp [runImpl, runHadError, hnode, he, hsi]
            · by_cases ha : 0 < env.analyseErrors <;>
                simp [runImpl, runHadError, hnode, he, hsi, ha]

/-- Claim C9 (witness): a transform run in an error-free environment exits
with code 0. -/
theorem runImpl_exit_code_characterization_witness :
    runImpl false (Except.ok RunOptions.transform) c9Env =
      some (if runHadError (Except.ok RunOptions.transform) c9Env then 1 else 0) :=
  runImpl_exit_code_characterization (Except.ok RunOptions.transform) c9Env
    (by decide) (by decide)

/-- Claim C10: with no caller-specified order the resolve-extension order is
exactly `.tsx, .ts, .jsx, .mjs, .cjs, .js, .css, .json`; an explicit order
is kept as-is with one error logged per invalid entry, and an extension is
valid exactly when it has at least two characters, begins with a dot, and
does not end with a dot. -/
theorem resolve_extensions_default_and_validity :
    (validateResolveExtensions Option.none =
      ([".tsx", ".ts", ".jsx", ".mjs", ".cjs", ".js", ".css", ".json"], [])) ∧
    (∀ order : List String,
      (validateResolveExtensions (some order)).1 = order ∧
      (validateResolveExtensions (some order)).2.length =
        (order.filter (fun ext => !isValidExtension ext)).length) ∧
    (∀ ext : String, isValidExtension ext = true ↔
      2 ≤ ext.data.length ∧ ext.data.head? = some '.' ∧ ext.data.getLast? ≠ some '.') := by
  refine ⟨rfl, fun order => ⟨rfl, ?_⟩, fun ext => ?_⟩
  · simp [validateResolveExtensions]
  · rw [show ext.data.length = ext.length from rfl]
    simp [isValidExtension, Bool.and_eq_true, decide_eq_true_eq, beq_iff_eq,
      Bool.not_eq_true', beq_eq_false_iff_ne, and_assoc]

end Esbuild
